import Mathlib

/-!
Verification of the LIFX Cloud integration (HTTP client, light record,
polling coordinator, and light-entity adapter) against its design
specification.

The Python sources are shallowly embedded: JSON values are an inductive
type, Python floats are modelled as rationals, fallible operations return
`Option`/`Except`, and the stateful session-ownership logic is explicit
state passing.  Each definition mirrors one function of
`custom_components/lifx_cloud/{api,coordinator,light}.py`.
-/

/-! ## JSON values (Python dict/list/str/float/bool/None payloads) -/

/-- A JSON value as handled by the Python code: `None`, booleans, numbers
(Python floats/ints, modelled as rationals), strings, arrays and objects
(Python dicts with string keys, in insertion order). -/
inductive Json where
  | null : Json
  | bool (b : Bool) : Json
  | num (q : ℚ) : Json
  | str (s : String) : Json
  | arr (elems : List Json) : Json
  | obj (entries : List (String × Json)) : Json

mutual

/-- Structural equality of JSON values (Python `==` on parsed JSON). -/
def Json.beq : Json → Json → Bool
  | .null, .null => true
  | .bool a, .bool b => a == b
  | .num a, .num b => a == b
  | .str a, .str b => a == b
  | .arr xs, .arr ys => Json.beqList xs ys
  | .obj xs, .obj ys => Json.beqEntries xs ys
  | _, _ => false

/-- Structural equality of JSON arrays, element by element. -/
def Json.beqList : List Json → List Json → Bool
  | [], [] => true
  | x :: xs, y :: ys => Json.beq x y && Json.beqList xs ys
  | _, _ => false

/-- Structural equality of JSON object entry lists, entry by entry. -/
def Json.beqEntries : List (String × Json) → List (String × Json) → Bool
  | [], [] => true
  | (k1, v1) :: xs, (k2, v2) :: ys => k1 == k2 && Json.beq v1 v2 && Json.beqEntries xs ys
  | _, _ => false

end

mutual

/-- Soundness of `Json.beq`: it only identifies equal values. -/
theorem Json.eq_of_beq : ∀ a b : Json, Json.beq a b = true → a = b
  | .null, b, h => by cases b <;> simp_all [Json.beq]
  | .bool x, b, h => by cases b <;> simp_all [Json.beq]
  | .num x, b, h => by cases b <;> simp_all [Json.beq]
  | .str x, b, h => by cases b <;> simp_all [Json.beq]
  | .arr xs, b, h => by
      cases b <;> simp_all [Json.beq]
      exact Json.eqList_of_beq xs _ h
  | .obj xs, b, h => by
      cases b <;> simp_all [Json.beq]
      exact Json.eqEntries_of_beq xs _ h

/-- Soundness of `Json.beqList`. -/
theorem Json.eqList_of_beq : ∀ xs ys : List Json, Json.beqList xs ys = true → xs = ys
  | [], ys, h => by cases ys <;> simp_all [Json.beqList]
  | x :: xs, ys, h => by
      cases ys with
      | nil => simp_all [Json.beqList]
      | cons y ys =>
          simp only [Json.beqList, Bool.and_eq_true] at h
          exact by rw [Json.eq_of_beq x y h.1, Json.eqList_of_beq xs ys h.2]

/-- Soundness of `Json.beqEntries`. -/
theorem Json.eqEntries_of_beq :
    ∀ xs ys : List (String × Json), Json.beqEntries xs ys = true → xs = ys
  | [], ys, h => by cases ys <;> simp_all [Json.beqEntries]
  | (k, v) :: xs, ys, h => by
      cases ys with
      | nil => simp_all [Json.beqEntries]
      | cons p ys =>
          obtain ⟨k2, v2⟩ := p
          simp only [Json.beqEntries, Bool.and_eq_true, beq_iff_eq] at h
          exact by rw [h.1.1, Json.eq_of_beq v v2 h.1.2, Json.eqEntries_of_beq xs ys h.2]

end

mutual

/-- Reflexivity of `Json.beq`. -/
theorem Json.beq_refl : ∀ j : Json, Json.beq j j = true
  | .null => rfl
  | .bool b => by simp [Json.beq]
  | .num q => by simp [Json.beq]
  | .str s => by simp [Json.beq]
  | .arr xs => by simp [Json.beq, Json.beqList_refl xs]
  | .obj xs => by simp [Json.beq, Json.beqEntries_refl xs]

/-- Reflexivity of `Json.beqList`. -/
theorem Json.beqList_refl : ∀ xs : List Json, Json.beqList xs xs = true
  | [] => rfl
  | x :: xs => by simp [Json.beqList, Json.beq_refl x, Json.beqList_refl xs]

/-- Reflexivity of `Json.beqEntries`. -/
theorem Json.beqEntries_refl : ∀ xs : List (String × Json), Json.beqEntries xs xs = true
  | [] => rfl
  | (k, v) :: xs => by simp [Json.beqEntries, Json.beq_refl v, Json.beqEntries_refl xs]

end

instance : DecidableEq Json := fun a b =>
  if h : Json.beq a b = true then isTrue (Json.eq_of_beq a b h)
  else isFalse (fun he => h (he ▸ Json.beq_refl a))

/-- Key lookup in a JSON object: `entries[k]` / presence test.  Returns
`none` when the key is absent or the value is not an object (Python raises
there; the code only ever subscripts dicts). -/
def Json.get? : Json → String → Option Json
  | .obj entries, k => (entries.find? (fun p => p.1 == k)).map Prod.snd
  | _, _ => none

/-- Python `d.get(k, default)` on a JSON object: the stored value when the
key is present, the supplied default otherwise. -/
def Json.getD (j : Json) (k : String) (d : Json) : Json :=
  (j.get? k).getD d

/-- Python truthiness of a JSON value (`if x:`): `None`, `False`, `0`,
empty string, empty list and empty dict are falsy. -/
def Json.truthy : Json → Bool
  | .null => false
  | .bool b => b
  | .num q => decide (q ≠ 0)
  | .str s => decide (s ≠ "")
  | .arr xs => decide (xs ≠ [])
  | .obj es => decide (es ≠ [])

/-- Python `x > 0` on a JSON value: defined for numbers and booleans
(Python booleans are integers), a `TypeError` (`none`) otherwise. -/
def Json.gtZero? : Json → Option Bool
  | .num q => some (decide (0 < q))
  | .bool b => some b
  | _ => none

/-- Python `int(q)` on a number: truncation toward zero. -/
def pyInt (q : ℚ) : ℤ :=
  if 0 ≤ q then ⌊q⌋ else ⌈q⌉

/-! ## Error taxonomy (`api.py` lines 14-23)

`LifxCloudAuthError` and `LifxCloudConnectionError` both subclass
`LifxCloudAPIError`; the base class is also raised directly for generic
HTTP failures.  `ErrClass.catches` models Python `except` clause matching
against this hierarchy. -/

/-- A raised LIFX Cloud exception: its most specific class plus message. -/
inductive LifxCloudError where
  | authError (msg : String)
  | connectionError (msg : String)
  | apiError (msg : String)
  deriving DecidableEq

/-- The three exception classes of the hierarchy that an `except` clause
can name: the base `LifxCloudAPIError`, `LifxCloudAuthError`,
`LifxCloudConnectionError`. -/
inductive ErrClass where
  | base
  | auth
  | conn
  deriving DecidableEq

/-- Whether an `except` clause naming the given class catches the given
raised error: the base class catches everything (both subclasses derive
from it), each subclass catches only itself. -/
def ErrClass.catches : ErrClass → LifxCloudError → Bool
  | .base, _ => true
  | .auth, .authError _ => true
  | .auth, _ => false
  | .conn, .connectionError _ => true
  | .conn, _ => false

/-- The message carried by a raised error (Python `str(err)`). -/
def LifxCloudError.message : LifxCloudError → String
  | .authError m => m
  | .connectionError m => m
  | .apiError m => m

/-! ## HTTP client request handling (`LifxCloudAPI._request`) -/

/-- What the network produced for one request: an HTTP response (status,
parsed JSON body, body text), a timeout (`asyncio.TimeoutError`), or a
transport-level failure (`aiohttp.ClientError`).  The body is carried
already parsed; the code calls `response.json()` only in the branches
proved below. -/
inductive HttpResult where
  | response (status : Nat) (body : Json) (text : String)
  | timeout
  | clientError (err : String)

namespace LifxCloudAPI

/-- Embeds `LifxCloudAPI._request` (api.py lines 134-176): the translation
of an HTTP result into either a raised `LifxCloudError` or a returned
value (`some` parsed body, or `none` for the bodyless 202 fast path). -/
def _request : HttpResult → Except LifxCloudError (Option Json)
  | .timeout => .error (.connectionError "Request timed out")
  | .clientError err => .error (.connectionError ("Connection error: " ++ err))
  | .response status body text =>
      if status = 401 then .error (.authError "Invalid access token")
      else if status = 403 then .error (.authError "Access forbidden")
      else if status = 207 then .ok (some body)
      else if 400 ≤ status then
        .error (.apiError ("API error " ++ toString status ++ ": " ++ text))
      else if status = 202 then .ok none
      else .ok (some body)

end LifxCloudAPI

/-! ## Light record (`LifxLight`, api.py lines 26-103)

The Python dataclass fields are type-annotated but unchecked; they hold
whatever JSON the vendor sent, so every field is embedded as `Json`. -/

/-- Embeds the `LifxLight` dataclass. -/
structure LifxLight where
  id : Json
  uuid : Json
  label : Json
  connected : Json
  power : Json
  brightness : Json
  color : Json
  group : Json
  location : Json
  product : Json
  last_seen : Json
  seconds_since_seen : Json
  deriving DecidableEq

namespace LifxLight

/-- Embeds `LifxLight.from_dict` (api.py lines 87-103).  `data["id"]` and
`data["label"]` are unguarded subscripts (a `KeyError` when absent, a
`TypeError` when `data` is not a dict — `none` here); every other field
falls back to a default via `data.get`. -/
def from_dict (data : Json) : Option LifxLight :=
  match data.get? "id", data.get? "label" with
  | some idv, some labelv =>
      some
        { id := idv
          uuid := data.getD "uuid" idv
          label := labelv
          connected := data.getD "connected" (.bool false)
          power := data.getD "power" (.str "off")
          brightness := data.getD "brightness" (.num 0)
          color := data.getD "color" (.obj [])
          group := data.getD "group" (.obj [])
          location := data.getD "location" (.obj [])
          product := data.getD "product" (.obj [])
          last_seen := data.getD "last_seen" (.str "")
          seconds_since_seen := data.getD "seconds_since_seen" (.num 0) }
  | _, _ => none

/-- Embeds the `is_on` property: `self.power == "on"`. -/
def is_on (l : LifxLight) : Bool :=
  l.power == Json.str "on"

/-- Embeds the `hue` property: `self.color.get("hue", 0)`. -/
def hue (l : LifxLight) : Json :=
  l.color.getD "hue" (.num 0)

/-- Embeds the `saturation` property: `self.color.get("saturation", 0)`. -/
def saturation (l : LifxLight) : Json :=
  l.color.getD "saturation" (.num 0)

/-- Embeds the `kelvin` property: `self.color.get("kelvin", 3500)`. -/
def kelvin (l : LifxLight) : Json :=
  l.color.getD "kelvin" (.num 3500)

/-- Embeds `self.product.get("capabilities", {})`, shared by the four
capability properties below. -/
def capabilities (l : LifxLight) : Json :=
  l.product.getD "capabilities" (.obj [])

/-- Embeds the `supports_color` property:
`capabilities.get("has_color", False)`. -/
def supports_color (l : LifxLight) : Json :=
  l.capabilities.getD "has_color" (.bool false)

/-- Embeds the `supports_temperature` property:
`capabilities.get("has_variable_color_temp", False)`. -/
def supports_temperature (l : LifxLight) : Json :=
  l.capabilities.getD "has_variable_color_temp" (.bool false)

/-- Embeds the `min_kelvin` property: `capabilities.get("min_kelvin", 2500)`. -/
def min_kelvin (l : LifxLight) : Json :=
  l.capabilities.getD "min_kelvin" (.num 2500)

/-- Embeds the `max_kelvin` property: `capabilities.get("max_kelvin", 9000)`. -/
def max_kelvin (l : LifxLight) : Json :=
  l.capabilities.getD "max_kelvin" (.num 9000)

end LifxLight

namespace LifxCloudAPI

/-- Embeds `LifxCloudAPI.validate_token` (api.py lines 183-189) over the
outcome of the `list_lights` call it performs: `except LifxCloudAuthError`
turns an authentication error into `false`, success into `true`, and every
other raised error propagates. -/
def validate_token (listing : Except LifxCloudError (List LifxLight)) :
    Except LifxCloudError Bool :=
  match listing with
  | .ok _ => .ok true
  | .error e => if ErrClass.catches .auth e then .ok false else .error e

end LifxCloudAPI

/-! ## Polling coordinator (`coordinator.py`)

The repository supplies only the fetch step `_async_update_data`; the
surrounding refresh machinery is the host's `DataUpdateCoordinator`
class, which is not part of this repository and is modelled from the
spec below. -/

/-- A Python dict from light id to record, as an entry list in insertion
order (keys unique). -/
abbrev LightMap := List (Json × LifxLight)

/-- Python dict update `m[k] = v`: replaces the value at an existing key
in place, otherwise appends a new entry at the end. -/
def dictUpd : LightMap → Json → LifxLight → LightMap
  | [], k, v => [(k, v)]
  | p :: rest, k, v =>
      if p.1 == k then (p.1, v) :: rest else p :: dictUpd rest k v

/-- Python dict lookup `m.get(k)`. -/
def dictGet (m : LightMap) (k : Json) : Option LifxLight :=
  (m.find? (fun p => p.1 == k)).map Prod.snd

/-- Embeds the dict comprehension of coordinator.py line 36:
`{light.id: light for light in lights}`. -/
def buildLightMap (lights : List LifxLight) : LightMap :=
  lights.foldl (fun m l => dictUpd m l.id l) []

/-- An exception crossing the coordinator fetch boundary: the host's
`UpdateFailed`, or anything else. -/
inductive CoordException where
  | updateFailed (msg : String)
  | other (msg : String)
  deriving DecidableEq

/-- Embeds `LifxCloudCoordinator._async_update_data` (coordinator.py lines
32-38) over the outcome of its `list_lights` call: a successful listing
becomes the id-keyed map; `except LifxCloudAPIError` (the base class, so
every error of the hierarchy) becomes `UpdateFailed`. -/
def _async_update_data (fetch : Except LifxCloudError (List LifxLight)) :
    Except CoordException LightMap :=
  match fetch with
  | .ok lights => .ok (buildLightMap lights)
  | .error err =>
      if ErrClass.catches .base err then
        .error (.updateFailed ("Error communicating with API: " ++ err.message))
      else .error (.other err.message)

/-- Coordinator state: the shared id-to-record map and the fresh/stale
flag the host keeps (`last_update_success`). -/
structure CoordState where
  data : LightMap
  last_update_success : Bool
  deriving DecidableEq

/-- Modelled from the spec: the refresh boundary of the host framework
class `DataUpdateCoordinator` (not part of this repository).  On a
successful fetch it replaces the stored map wholesale and marks the
coordinator fresh; a fetch that raises `UpdateFailed` leaves the map
untouched, marks the coordinator stale and still notifies subscribers
(the returned flag); any other exception would escape the boundary. -/
def coordinatorRefresh (st : CoordState) (result : Except CoordException LightMap) :
    Except CoordException (CoordState × Bool) :=
  match result with
  | .ok m => .ok ({ data := m, last_update_success := true }, true)
  | .error (.updateFailed _) => .ok ({ st with last_update_success := false }, true)
  | .error e => .error e

/-! ## Light entity adapter (`light.py`) -/

/-- The host color modes the adapter can report. -/
inductive ColorMode where
  | hs
  | colorTemp
  | brightness
  deriving DecidableEq

/-- A color descriptor string sent to the vendor API, kept structured:
`hs h s` stands for the formatted string `"hue:<h> saturation:<s>"`
(light.py line 209, where `s` is already divided by 100) and `kelvin k`
for `"kelvin:<k>"` (line 212). -/
inductive ColorDesc where
  | hs (hue satOver100 : ℚ)
  | kelvin (k : ℚ)
  deriving DecidableEq

/-- One call the adapter issues against the API client or coordinator,
with the client-side defaults of api.py already applied (for the effect
endpoints: persist=False, power_on=True, and peak=0.5 for breathe). -/
inductive ApiCall where
  | setState (selector : String) (power : Option String) (color : Option ColorDesc)
      (brightness : Option ℚ) (duration : ℚ)
  | breathe (selector : String) (color : String) (period cycles : ℚ)
      (persist power_on : Bool) (peak : ℚ)
  | pulse (selector : String) (color : String) (period cycles : ℚ)
      (persist power_on : Bool)
  | requestRefresh
  deriving DecidableEq

/-- A value in a JSON request body built by `set_state`. -/
inductive BodyVal where
  | s (v : String)
  | q (v : ℚ)
  | b (v : Bool)
  | c (v : ColorDesc)
  deriving DecidableEq

/-- Embeds the request-body construction of `LifxCloudAPI.set_state`
(api.py lines 191-215): `duration` is always present, each optional field
is added only when supplied, in source order. -/
def set_state_body (power : Option String) (color : Option ColorDesc)
    (brightness : Option ℚ) (duration : ℚ) (infrared : Option ℚ) (fast : Bool) :
    List (String × BodyVal) :=
  [("duration", .q duration)]
    ++ (match power with | some p => [("power", .s p)] | none => [])
    ++ (match color with | some c => [("color", .c c)] | none => [])
    ++ (match brightness with | some b => [("brightness", .q b)] | none => [])
    ++ (match infrared with | some i => [("infrared", .q i)] | none => [])
    ++ (if fast then [("fast", .b true)] else [])

namespace LifxCloudLight

/-- Embeds the entity `brightness` property (light.py lines 110-115):
`int(self._light.brightness * 255)`.  Python booleans multiply as 0/1;
a non-numeric stored value (which well-formed vendor data never
produces) is modelled as failure. -/
def brightness (l : LifxLight) : Option ℤ :=
  match l.brightness with
  | .num q => some (pyInt (q * 255))
  | .bool b => some (pyInt ((if b then 1 else 0) * 255))
  | _ => none

/-- Embeds the entity `color_mode` property (light.py lines 117-127).
Python short-circuits `supports_color and saturation > 0`, so the
comparison (which can raise on non-numeric data, `none` here) only runs
when `supports_color` is truthy. -/
def color_mode (l : LifxLight) : Option ColorMode :=
  if l.supports_color.truthy then
    match l.saturation.gtZero? with
    | none => none
    | some true => some .hs
    | some false =>
        if l.supports_temperature.truthy then some .colorTemp else some .brightness
  else if l.supports_temperature.truthy then some .colorTemp else some .brightness

/-- Embeds the entity `supported_color_modes` property (light.py lines
129-142): start empty, add HS for color support, add color-temp for
variable-temperature support, fall back to brightness-only when empty. -/
def supported_color_modes (l : LifxLight) : Finset ColorMode :=
  let modes : Finset ColorMode := ∅
  let modes := if l.supports_color.truthy then insert .hs modes else modes
  let modes := if l.supports_temperature.truthy then insert .colorTemp modes else modes
  if modes = ∅ then {.brightness} else modes

/-- The keyword arguments of a turn-on service call, one optional slot per
attribute the code reads (`ATTR_EFFECT`, `ATTR_HS_COLOR`,
`ATTR_COLOR_TEMP_KELVIN`, `ATTR_BRIGHTNESS`, `ATTR_TRANSITION`). -/
structure TurnOnArgs where
  effect : Option String
  hs_color : Option (ℚ × ℚ)
  color_temp_kelvin : Option ℚ
  brightness : Option ℚ
  transition : Option ℚ

/-- Embeds the color-descriptor selection of light.py lines 204-212: HS
input is checked first, kelvin only in the `elif`, nothing otherwise. -/
def colorStrOf (args : TurnOnArgs) : Option ColorDesc :=
  match args.hs_color with
  | some (h, s) => some (.hs h (s / 100))
  | none =>
      match args.color_temp_kelvin with
      | some k => some (.kelvin k)
      | none => none

/-- Embeds `LifxCloudLight.async_turn_on` (light.py lines 177-225) as the
list of API calls it issues.  `hasLight` is whether the coordinator map
still holds this light (the `self._light is None` guard); a requested
effect other than breathe/pulse falls through to the state-set path, as
in the source. -/
def async_turn_on (hasLight : Bool) (lightId : String) (args : TurnOnArgs) :
    List ApiCall :=
  if hasLight then
    match args.effect with
    | some e =>
        if e = "breathe" then
          [.breathe ("id:" ++ lightId) "white" 2 3 false true (1 / 2)]
        else if e = "pulse" then
          [.pulse ("id:" ++ lightId) "white" 1 3 false true]
        else
          [.setState ("id:" ++ lightId) (some "on") (colorStrOf args)
              (args.brightness.map (fun b => b / 255)) (args.transition.getD 1),
            .requestRefresh]
    | none =>
        [.setState ("id:" ++ lightId) (some "on") (colorStrOf args)
            (args.brightness.map (fun b => b / 255)) (args.transition.getD 1),
          .requestRefresh]
  else []

/-- The first `set_state` call in a call list, with its arguments. -/
def sentSetState (calls : List ApiCall) :
    Option (String × Option String × Option ColorDesc × Option ℚ × ℚ) :=
  calls.findSome? fun c =>
    match c with
    | .setState sel p col b d => some (sel, p, col, b, d)
    | _ => none

end LifxCloudLight

/-! ## Session ownership (`LifxCloudAPI.__init__`, `_get_session`, `close`)

Sessions are shared mutable resources; a session store maps session ids
to their closed flag, and the client state carries the fields
`_session` and `_owned_session` plus a ghost list of the ids the client
created itself. -/

/-- The world of `aiohttp` sessions: which ids are closed, and a counter
supplying fresh ids for newly constructed sessions. -/
structure SessionWorld where
  closed : Nat → Bool
  nextId : Nat

/-- Client session state: `self._session` and `self._owned_session`,
plus the ghost history of ids this client created via
`aiohttp.ClientSession()`. -/
structure ClientState where
  session : Option Nat
  _owned_session : Bool
  selfCreated : List Nat

namespace LifxCloudAPI

/-- Embeds `LifxCloudAPI.__init__` (api.py lines 109-113): store the
optional externally supplied session and set
`_owned_session = session is None`. -/
def initClient (session : Option Nat) : ClientState :=
  { session := session, _owned_session := session.isNone, selfCreated := [] }

/-- Embeds `LifxCloudAPI._get_session` (api.py lines 115-120): when the
stored session is absent or closed, construct a fresh open session, store
it and take ownership; otherwise return the stored session unchanged. -/
def _get_session (st : ClientState) (w : SessionWorld) :
    ClientState × SessionWorld × Nat :=
  let needNew :=
    match st.session with
    | none => true
    | some s => w.closed s
  if needNew then
    let sid := w.nextId
    ({ session := some sid, _owned_session := true, selfCreated := sid :: st.selfCreated },
      { closed := fun i => if i = sid then false else w.closed i, nextId := sid + 1 },
      sid)
  else (st, w, st.session.getD 0)

/-- Embeds `LifxCloudAPI.close` (api.py lines 122-125): close the stored
session only when `_owned_session` holds, a session is stored, and it is
not already closed. -/
def close (st : ClientState) (w : SessionWorld) : SessionWorld :=
  match st.session with
  | none => w
  | some s =>
      if st._owned_session && !(w.closed s) then
        { w with closed := fun i => if i = s then true else w.closed i }
      else w

/-- Client states reachable through the client's own methods.  `close`
and environment actions (such as the external owner closing its session)
mutate only the session world, never the client fields, so they need no
step here. -/
inductive Reachable : ClientState → Prop
  | init (ext : Option Nat) : Reachable (initClient ext)
  | get (st : ClientState) (w : SessionWorld) :
      Reachable st → Reachable (_get_session st w).1

/-- The ownership invariant: whenever a session is held, the
`_owned_session` flag holds exactly when that session was created by the
client itself; and a client that never took ownership created nothing. -/
def SessionInv (st : ClientState) : Prop :=
  (∀ s, st.session = some s → (st._owned_session = true ↔ s ∈ st.selfCreated))
    ∧ (st._owned_session = false → st.selfCreated = [])

end LifxCloudAPI

/-- The color-mode selection rule as the spec words it: color support
with strictly positive saturation gives HS, else variable color
temperature gives color-temperature mode, else brightness only.  Stated
separately from the source-derived `LifxCloudLight.color_mode` so the two
can be compared. -/
def specColorMode (supportsColor satPos supportsTemp : Bool) : ColorMode :=
  if supportsColor && satPos then .hs
  else if supportsTemp then .colorTemp
  else .brightness

/-- The supported-mode set as the spec words it: the union of HS (when
color is supported) and color-temperature (when supported), falling back
to brightness-only when both are absent. -/
def specSupportedModes (supportsColor supportsTemp : Bool) : Finset ColorMode :=
  let u := (if supportsColor then {ColorMode.hs} else (∅ : Finset ColorMode))
    ∪ (if supportsTemp then {ColorMode.colorTemp} else (∅ : Finset ColorMode))
  if u = ∅ then {.brightness} else u

/-- A concrete light record used to evaluate theorems on closed inputs. -/
def sampleLightA : LifxLight :=
  { id := .str "a", uuid := .str "a", label := .str "L", connected := .bool true,
    power := .str "on", brightness := .num 1, color := .obj [], group := .obj [],
    location := .obj [], product := .obj [], last_seen := .str "",
    seconds_since_seen := .num 0 }

/-- A second concrete light record with a different id. -/
def sampleLightB : LifxLight :=
  { id := .str "b", uuid := .str "b", label := .str "M", connected := .bool true,
    power := .str "off", brightness := .num 0, color := .obj [], group := .obj [],
    location := .obj [], product := .obj [], last_seen := .str "",
    seconds_since_seen := .num 0 }

/-- A concrete full-color light record with saturated color. -/
def sampleColorLight : LifxLight :=
  { id := .str "c", uuid := .str "c", label := .str "N", connected := .bool true,
    power := .str "on", brightness := .num 1,
    color := .obj [("hue", .num 120), ("saturation", .num 1), ("kelvin", .num 3500)],
    group := .obj [], location := .obj [],
    product := .obj [("capabilities",
      .obj [("has_color", .bool true), ("has_variable_color_temp", .bool true)])],
    last_seen := .str "", seconds_since_seen := .num 0 }

/-! ## Claims -/

/-- C1: for every HTTP response received by the request operation the
outcome is exactly the one of the status table — 401 raises an
authentication error "Invalid access token"; 403 raises an authentication
error "Access forbidden"; 207 returns the parsed JSON body; any other
status >= 400 raises a generic API error carrying the status code and
response text; 202 returns nothing without parsing a body; any other 2xx
returns the parsed JSON body; a timeout or transport failure raises a
connection error distinct from, but caught by the same base class as, the
generic API error. -/
theorem C1_request_status_table :
    (∀ body text, LifxCloudAPI._request (.response 401 body text) =
        .error (.authError "Invalid access token"))
  ∧ (∀ body text, LifxCloudAPI._request (.response 403 body text) =
        .error (.authError "Access forbidden"))
  ∧ (∀ body text, LifxCloudAPI._request (.response 207 body text) = .ok (some body))
  ∧ (∀ status body text, 400 ≤ status → status ≠ 401 → status ≠ 403 →
        LifxCloudAPI._request (.response status body text) =
          .error (.apiError ("API error " ++ toString status ++ ": " ++ text)))
  ∧ (∀ body text, LifxCloudAPI._request (.response 202 body text) = .ok none)
  ∧ (∀ status body text, 200 ≤ status → status < 300 → status ≠ 202 → status ≠ 207 →
        LifxCloudAPI._request (.response status body text) = .ok (some body))
  ∧ LifxCloudAPI._request .timeout = .error (.connectionError "Request timed out")
  ∧ (∀ e, LifxCloudAPI._request (.clientError e) =
        .error (.connectionError ("Connection error: " ++ e)))
  ∧ (∀ m t, LifxCloudError.connectionError m ≠ LifxCloudError.apiError t)
  ∧ (∀ m, ErrClass.catches .base (.connectionError m) = true
        ∧ ErrClass.catches .base (.apiError m) = true) := by
  refine ⟨fun body text => rfl, fun body text => rfl, fun body text => rfl,
    ?_, fun body text => rfl, ?_, rfl, fun e => rfl,
    fun m t h => LifxCloudError.noConfusion h, fun m => ⟨rfl, rfl⟩⟩
  · intro status body text h400 h401 h403
    simp only [LifxCloudAPI._request]
    rw [if_neg h401, if_neg h403, if_neg (by omega : ¬ status = 207), if_pos h400]
  · intro status body text h200 h300 h202 h207
    simp only [LifxCloudAPI._request]
    rw [if_neg (by omega : ¬ status = 401), if_neg (by omega : ¬ status = 403),
      if_neg h207, if_neg (by omega : ¬ 400 ≤ status), if_neg h202]

/-- Witness for C1: the conditional rows of the table evaluated at a
concrete 500 response and a concrete 204 response. -/
theorem C1_request_status_table_witness :
    LifxCloudAPI._request (.response 500 .null "boom") =
        .error (.apiError ("API error " ++ toString 500 ++ ": " ++ "boom"))
  ∧ LifxCloudAPI._request (.response 204 .null "") = .ok (some .null) :=
  ⟨C1_request_status_table.2.2.2.1 500 .null "boom" (by decide) (by decide) (by decide),
    C1_request_status_table.2.2.2.2.2.1 204 .null "" (by decide) (by decide)
      (by decide) (by decide)⟩

/-- C8: validate_token returns false exactly when the listing raised an
authentication error, true when the listing succeeded, and a connection
error or generic API error raised by the listing propagates unchanged. -/
theorem C8_validate_token :
    (∀ r : Except LifxCloudError (List LifxLight),
        LifxCloudAPI.validate_token r = .ok false ↔ ∃ m, r = .error (.authError m))
  ∧ (∀ lights : List LifxLight, LifxCloudAPI.validate_token (.ok lights) = .ok true)
  ∧ (∀ m, LifxCloudAPI.validate_token
        (Except.error (LifxCloudError.connectionError m)) = .error (.connectionError m))
  ∧ (∀ m, LifxCloudAPI.validate_token
        (Except.error (LifxCloudError.apiError m)) = .error (.apiError m)) := by
  refine ⟨?_, fun lights => rfl, fun m => rfl, fun m => rfl⟩
  intro r
  match r with
  | .ok v => simp [LifxCloudAPI.validate_token]
  | .error (.authError m) => simp [LifxCloudAPI.validate_token, ErrClass.catches]
  | .error (.connectionError m) => simp [LifxCloudAPI.validate_token, ErrClass.catches]
  | .error (.apiError m) => simp [LifxCloudAPI.validate_token, ErrClass.catches]

/-- Witness for C8: a concrete authentication failure makes
validate_token return false. -/
theorem C8_validate_token_witness :
    LifxCloudAPI.validate_token (Except.error (LifxCloudError.authError "Invalid access token")) =
      .ok false :=
  (C8_validate_token.1 _).mpr ⟨"Invalid access token", rfl⟩

/-- C9: close releases the session only when the client owns it — a
client holding an externally supplied session it never replaced leaves
the whole session world unchanged on close, while an owned open session
is closed by the first close and a second close is a no-op. -/
theorem C9_close_ownership :
    (∀ s, (LifxCloudAPI.initClient (some s))._owned_session = false
        ∧ (LifxCloudAPI.initClient (some s)).session = some s)
  ∧ (∀ st w, st._owned_session = false → LifxCloudAPI.close st w = w)
  ∧ (∀ st w s, st._owned_session = true → st.session = some s → w.closed s = false →
        (LifxCloudAPI.close st w).closed s = true
          ∧ LifxCloudAPI.close st (LifxCloudAPI.close st w) = LifxCloudAPI.close st w) := by
  refine ⟨fun s => ⟨rfl, rfl⟩, ?_, ?_⟩
  · intro st w h
    match hs : st.session with
    | none => simp [LifxCloudAPI.close, hs]
    | some s => simp [LifxCloudAPI.close, hs, h]
  · intro st w s ho hs hc
    constructor
    · simp [LifxCloudAPI.close, hs, ho, hc]
    · simp [LifxCloudAPI.close, hs, ho, hc]

/-- Witness for C9: a concrete borrowed session survives close, a
concrete owned session is closed exactly once. -/
theorem C9_close_ownership_witness :
    LifxCloudAPI.close (LifxCloudAPI.initClient (some 7)) ⟨fun _ => false, 8⟩ =
        ⟨fun _ => false, 8⟩
  ∧ (LifxCloudAPI.close ⟨some 5, true, [5]⟩ ⟨fun _ => false, 6⟩).closed 5 = true :=
  ⟨C9_close_ownership.2.1 (LifxCloudAPI.initClient (some 7)) ⟨fun _ => false, 8⟩ rfl,
    (C9_close_ownership.2.2 ⟨some 5, true, [5]⟩ ⟨fun _ => false, 6⟩ 5 rfl rfl rfl).1⟩

/-- Updating a key and then looking it up yields the new value. -/
theorem dictGet_dictUpd_self (m : LightMap) (k : Json) (v : LifxLight) :
    dictGet (dictUpd m k v) k = some v := by
  induction m with
  | nil => simp [dictUpd, dictGet]
  | cons p rest ih =>
      by_cases h : p.1 = k
      · simp [dictUpd, dictGet, h]
      · simpa [dictUpd, dictGet, h] using ih

/-- Updating one key leaves lookups of any other key unchanged. -/
theorem dictGet_dictUpd_ne (m : LightMap) (k k' : Json) (v : LifxLight)
    (h : k ≠ k') : dictGet (dictUpd m k' v) k = dictGet m k := by
  have h' : ¬ k' = k := fun he => h he.symm
  induction m with
  | nil => simp [dictUpd, dictGet, h']
  | cons p rest ih =>
      by_cases hp : p.1 = k'
      · have hpk : ¬ p.1 = k := fun he => h' (hp.symm.trans he)
        simp [dictUpd, dictGet, hp, hpk, h']
      · by_cases hk : p.1 = k
        · simp [dictUpd, dictGet, hp, hk, h, h']
        · simpa [dictUpd, dictGet, hp, hk] using ih

/-- Folding further lights whose ids all differ from `k` does not change
the lookup of `k`. -/
theorem dictGet_fold_preserve (rest : List LifxLight) :
    ∀ (acc : LightMap) (k : Json), (∀ l ∈ rest, k ≠ l.id) →
      dictGet (rest.foldl (fun m x => dictUpd m x.id x) acc) k = dictGet acc k := by
  induction rest with
  | nil => intro acc k _; rfl
  | cons x rest ih =>
      intro acc k hk
      have hx : k ≠ x.id := hk x (List.mem_cons_self x rest)
      calc dictGet ((x :: rest).foldl (fun m y => dictUpd m y.id y) acc) k
          = dictGet (rest.foldl (fun m y => dictUpd m y.id y) (dictUpd acc x.id x)) k := by
            simp [List.foldl_cons]
        _ = dictGet (dictUpd acc x.id x) k :=
            ih (dictUpd acc x.id x) k (fun l hl => hk l (List.mem_cons_of_mem x hl))
        _ = dictGet acc k := dictGet_dictUpd_ne acc k x.id x hx

/-- Every light of a list with pairwise-distinct ids is found in the map
built from that list, whatever the accumulator. -/
theorem dictGet_fold_mem (lights : List LifxLight) :
    ∀ (acc : LightMap), lights.Pairwise (fun a b => a.id ≠ b.id) →
      ∀ l ∈ lights,
        dictGet (lights.foldl (fun m x => dictUpd m x.id x) acc) l.id = some l := by
  induction lights with
  | nil => intro acc _ l hl; cases hl
  | cons x rest ih =>
      intro acc hp l hl
      have hfold : (x :: rest).foldl (fun m y => dictUpd m y.id y) acc
          = rest.foldl (fun m y => dictUpd m y.id y) (dictUpd acc x.id x) := by
        simp [List.foldl_cons]
      rcases List.mem_cons.mp hl with rfl | hmem
      · rw [hfold,
          dictGet_fold_preserve rest (dictUpd acc l.id l) l.id
            (fun y hy => (List.pairwise_cons.mp hp).1 y hy),
          dictGet_dictUpd_self]
      · rw [hfold]
        exact ih (dictUpd acc x.id x) (List.pairwise_cons.mp hp).2 l hmem

/-- C2: a refresh whose fetch fails with any error of the hierarchy
(authentication, connection or generic) leaves the stored id-to-record
map unchanged, signals the failure to subscribers, and raises nothing
past the coordinator boundary; a successful refresh replaces the map
wholesale with one entry per light keyed by its id. -/
theorem C2_refresh_failure_and_replacement :
    (∀ (st : CoordState) (err : LifxCloudError),
        coordinatorRefresh st (_async_update_data (.error err)) =
          .ok ({ data := st.data, last_update_success := false }, true))
  ∧ (∀ (st : CoordState) (lights : List LifxLight),
        coordinatorRefresh st (_async_update_data (.ok lights)) =
          .ok ({ data := buildLightMap lights, last_update_success := true }, true))
  ∧ (∀ lights : List LifxLight, lights.Pairwise (fun a b => a.id ≠ b.id) →
        ∀ l ∈ lights, dictGet (buildLightMap lights) l.id = some l) := by
  refine ⟨?_, fun st lights => rfl, ?_⟩
  · intro st err
    cases err <;> rfl
  · intro lights hp l hl
    exact dictGet_fold_mem lights [] hp l hl

/-- Witness for C2: a failing refresh over a concrete one-light state
keeps the map, and the map built from two concrete lights finds the
second one under its id. -/
theorem C2_refresh_failure_and_replacement_witness :
    coordinatorRefresh
        { data := [(Json.str "a", sampleLightA)], last_update_success := true }
        (_async_update_data (.error (.connectionError "Request timed out"))) =
      .ok ({ data := [(Json.str "a", sampleLightA)], last_update_success := false }, true)
  ∧ dictGet (buildLightMap [sampleLightA, sampleLightB]) sampleLightB.id =
      some sampleLightB := by
  constructor
  · exact C2_refresh_failure_and_replacement.1
      { data := [(Json.str "a", sampleLightA)], last_update_success := true }
      (.connectionError "Request timed out")
  · exact C2_refresh_failure_and_replacement.2.2 [sampleLightA, sampleLightB]
      (by simp [sampleLightA, sampleLightB]) sampleLightB (by simp)

/-- C10: the ownership flag is true exactly when the currently held
session was created by the client itself, for every state reachable
through the client's methods; and a client constructed with an external
session that is found closed at request time creates a fresh owned
session which a subsequent close does close. -/
theorem C10_session_ownership_invariant :
    (∀ st : ClientState, LifxCloudAPI.Reachable st → LifxCloudAPI.SessionInv st)
  ∧ (∀ (ext : Nat) (w : SessionWorld), w.closed ext = true →
        ((LifxCloudAPI._get_session (LifxCloudAPI.initClient (some ext)) w).1._owned_session
            = true)
        ∧ (LifxCloudAPI._get_session (LifxCloudAPI.initClient (some ext)) w).1.session
            = some w.nextId
        ∧ (LifxCloudAPI.close
            (LifxCloudAPI._get_session (LifxCloudAPI.initClient (some ext)) w).1
            (LifxCloudAPI._get_session (LifxCloudAPI.initClient (some ext)) w).2.1).closed
            w.nextId = true) := by
  constructor
  · intro st hreach
    induction hreach with
    | init ext =>
        cases ext with
        | none =>
            exact ⟨fun s hs => Option.noConfusion hs, fun _ => rfl⟩
        | some s =>
            refine ⟨fun t ht => ?_, fun _ => rfl⟩
            simp [LifxCloudAPI.initClient]
    | get st w _ ih =>
        by_cases hnew : (match st.session with | none => true | some s => w.closed s) = true
        · have hst : (LifxCloudAPI._get_session st w).1 =
              { session := some w.nextId, _owned_session := true,
                selfCreated := w.nextId :: st.selfCreated } := by
            simp [LifxCloudAPI._get_session, hnew]
          rw [hst]
          refine ⟨fun t ht => ?_, fun how => Bool.noConfusion how⟩
          simp only [Option.some.injEq] at ht
          subst ht
          simp
        · have hnew' : (match st.session with | none => true | some s => w.closed s) = false :=
            Bool.eq_false_iff.mpr hnew
          have hst : (LifxCloudAPI._get_session st w).1 = st := by
            simp [LifxCloudAPI._get_session, hnew']
          rw [hst]
          exact ih
  · intro ext w hc
    refine ⟨?_, ?_, ?_⟩
    · simp [LifxCloudAPI._get_session, LifxCloudAPI.initClient, hc]
    · simp [LifxCloudAPI._get_session, LifxCloudAPI.initClient, hc]
    · simp [LifxCloudAPI._get_session, LifxCloudAPI.initClient, LifxCloudAPI.close, hc]

/-- Witness for C10: the invariant evaluated at a concretely reachable
state, and the replacement scenario at a concrete closed external
session. -/
theorem C10_session_ownership_invariant_witness :
    LifxCloudAPI.SessionInv (LifxCloudAPI.initClient (some 3))
  ∧ (LifxCloudAPI.close
        (LifxCloudAPI._get_session (LifxCloudAPI.initClient (some 3))
          ⟨fun _ => true, 4⟩).1
        (LifxCloudAPI._get_session (LifxCloudAPI.initClient (some 3))
          ⟨fun _ => true, 4⟩).2.1).closed 4 = true :=
  ⟨C10_session_ownership_invariant.1 _ (LifxCloudAPI.Reachable.init (some 3)),
    (C10_session_ownership_invariant.2 3 ⟨fun _ => true, 4⟩ rfl).2.2⟩

/-- C3 counterexample: the claim says construction succeeds for every
JSON object, but `from_dict` subscripts `data["id"]` unguarded, so the
empty object (missing the required id and label keys) fails. -/
theorem C3_from_dict_total_counterexample :
    LifxLight.from_dict (Json.obj []) = none := rfl

/-- C3 (amended): for every JSON object carrying the required "id" and
"label" keys, construction succeeds; every optional field absent from the
input takes its documented default (connected=false, power="off",
brightness=0, empty color/group/location/product), and an empty or
missing capabilities structure yields supports_color=false,
supports_temperature=false, min_kelvin=2500, max_kelvin=9000. -/
theorem C3_from_dict_defaults (data idv labelv : Json)
    (hid : data.get? "id" = some idv) (hlabel : data.get? "label" = some labelv) :
    ∃ l, LifxLight.from_dict data = some l
      ∧ l.id = idv ∧ l.label = labelv
      ∧ (data.get? "connected" = none → l.connected = .bool false)
      ∧ (data.get? "power" = none → l.power = .str "off")
      ∧ (data.get? "brightness" = none → l.brightness = .num 0)
      ∧ (data.get? "color" = none → l.color = .obj [])
      ∧ (data.get? "group" = none → l.group = .obj [])
      ∧ (data.get? "location" = none → l.location = .obj [])
      ∧ (data.get? "product" = none → l.product = .obj [])
      ∧ (data.get? "product" = none → l.capabilities = .obj [])
      ∧ (l.capabilities = .obj [] →
          l.supports_color = .bool false ∧ l.supports_temperature = .bool false
            ∧ l.min_kelvin = .num 2500 ∧ l.max_kelvin = .num 9000) := by
  refine ⟨{ id := idv, uuid := data.getD "uuid" idv, label := labelv,
            connected := data.getD "connected" (.bool false),
            power := data.getD "power" (.str "off"),
            brightness := data.getD "brightness" (.num 0),
            color := data.getD "color" (.obj []),
            group := data.getD "group" (.obj []),
            location := data.getD "location" (.obj []),
            product := data.getD "product" (.obj []),
            last_seen := data.getD "last_seen" (.str ""),
            seconds_since_seen := data.getD "seconds_since_seen" (.num 0) },
    ?_, rfl, rfl, ?_, ?_, ?_, ?_, ?_, ?_, ?_, ?_, ?_⟩
  · simp only [LifxLight.from_dict, hid, hlabel]
  · intro h; simp [Json.getD, h]
  · intro h; simp [Json.getD, h]
  · intro h; simp [Json.getD, h]
  · intro h; simp [Json.getD, h]
  · intro h; simp [Json.getD, h]
  · intro h; simp [Json.getD, h]
  · intro h; simp [Json.getD, h]
  · intro h
    simp only [LifxLight.capabilities, Json.getD, h]
    rfl
  · intro h
    refine ⟨?_, ?_, ?_, ?_⟩ <;>
      simp only [LifxLight.supports_color, LifxLight.supports_temperature,
        LifxLight.min_kelvin, LifxLight.max_kelvin, h] <;> rfl

/-- Witness for C3: the amended construction evaluated on a concrete
minimal object. -/
theorem C3_from_dict_defaults_witness :
    ∃ l, LifxLight.from_dict (Json.obj [("id", Json.str "x"), ("label", Json.str "y")]) =
        some l ∧ l.connected = Json.bool false ∧ l.supports_color = Json.bool false := by
  obtain ⟨l, hl, -, -, hc, -, -, -, -, -, -, hcap, hsup⟩ :=
    C3_from_dict_defaults (Json.obj [("id", Json.str "x"), ("label", Json.str "y")])
      (Json.str "x") (Json.str "y") rfl rfl
  exact ⟨l, hl, hc rfl, (hsup (hcap rfl)).1⟩

/-- C4 counterexample: the claim says the entity brightness property is
host = round(vendor * 255), but the source computes
`int(self._light.brightness * 255)`, which truncates: at vendor
brightness 0.999 the code yields 254 while round(0.999 * 255) = 255. -/
theorem C4_round_counterexample :
    LifxCloudLight.brightness { sampleLightA with brightness := Json.num (999 / 1000) } =
        some 254
  ∧ round ((999 / 1000 : ℚ) * 255) = 255
  ∧ (254 : ℤ) ≠ 255 := by
  refine ⟨?_, ?_, by decide⟩
  · have h : pyInt ((999 / 1000 : ℚ) * 255) = 254 := by
      rw [pyInt, if_pos (by norm_num), Int.floor_eq_iff] <;> norm_num
    simp [LifxCloudLight.brightness, sampleLightA, h]
  · rw [round_eq, Int.floor_eq_iff] <;> norm_num

/-- Truncation of a nonnegative integer-valued rational is exact. -/
theorem pyInt_intCast (z : ℤ) (hz : 0 ≤ z) : pyInt (z : ℚ) = z := by
  rw [pyInt, if_pos (by exact_mod_cast hz), Int.floor_intCast]

/-- C4 (amended): the brightness scale conversion is
host = int(vendor * 255) (truncation toward zero) in the entity's
brightness property and vendor = host / 255 in the turn-on command path;
for every host value b in {0,128,255} the round trip
int((b/255) * 255) equals b within plus or minus 1. -/
theorem C4_brightness_conversion :
    (∀ (l : LifxLight) (q : ℚ), l.brightness = Json.num q →
        LifxCloudLight.brightness l = some (pyInt (q * 255)))
  ∧ (∀ (lightId : String) (args : LifxCloudLight.TurnOnArgs) (b : ℚ),
        args.effect = none → args.brightness = some b →
        ∃ sel p c d, LifxCloudLight.async_turn_on true lightId args =
          [.setState sel p c (some (b / 255)) d, .requestRefresh])
  ∧ (∀ b : ℚ, b = 0 ∨ b = 128 ∨ b = 255 →
        |(pyInt ((b / 255) * 255) : ℚ) - b| ≤ 1) := by
  refine ⟨?_, ?_, ?_⟩
  · intro l q h
    simp [LifxCloudLight.brightness, h]
  · intro lightId args b he hb
    refine ⟨"id:" ++ lightId, some "on", LifxCloudLight.colorStrOf args,
      args.transition.getD 1, ?_⟩
    simp [LifxCloudLight.async_turn_on, he, hb]
  · intro b hb
    rcases hb with rfl | rfl | rfl
    · have h : ((0 : ℚ) / 255) * 255 = ((0 : ℤ) : ℚ) := by norm_num
      rw [h, pyInt_intCast 0 (by norm_num)]
      norm_num
    · have h : ((128 : ℚ) / 255) * 255 = ((128 : ℤ) : ℚ) := by norm_num
      rw [h, pyInt_intCast 128 (by norm_num)]
      norm_num
    · have h : ((255 : ℚ) / 255) * 255 = ((255 : ℤ) : ℚ) := by norm_num
      rw [h, pyInt_intCast 255 (by norm_num)]
      norm_num

/-- Witness for C4: the truncating conversion at a concrete record and
the round trip at host value 128. -/
theorem C4_brightness_conversion_witness :
    LifxCloudLight.brightness sampleLightA = some (pyInt (1 * 255))
  ∧ |(pyInt ((128 / 255 : ℚ) * 255) : ℚ) - 128| ≤ 1 :=
  ⟨C4_brightness_conversion.1 sampleLightA 1 rfl,
    C4_brightness_conversion.2.2 128 (Or.inr (Or.inl rfl))⟩

/-- C5: the entity's current color mode follows the exact rule — HS when
the record supports color and saturation is strictly positive, else
color temperature when supported, else brightness only — and the
supported-mode set is the union of HS and color-temperature as
supported, with the brightness-only fallback. -/
theorem C5_color_mode_selection (l : LifxLight) (b : Bool)
    (hsat : l.saturation.gtZero? = some b) :
    LifxCloudLight.color_mode l =
        some (specColorMode l.supports_color.truthy b l.supports_temperature.truthy)
  ∧ LifxCloudLight.supported_color_modes l =
      specSupportedModes l.supports_color.truthy l.supports_temperature.truthy := by
  constructor
  · cases hsc : l.supports_color.truthy <;> cases hb : b <;>
      cases hst : l.supports_temperature.truthy <;> subst hb <;>
      simp [LifxCloudLight.color_mode, specColorMode, hsc, hsat, hst]
  · cases hsc : l.supports_color.truthy <;> cases hst : l.supports_temperature.truthy <;>
      simp [LifxCloudLight.supported_color_modes, specSupportedModes, hsc, hst] <;>
      decide

/-- Witness for C5: the rule evaluated at a concrete saturated
full-color light. -/
theorem C5_color_mode_selection_witness :
    LifxCloudLight.color_mode sampleColorLight =
        some (specColorMode sampleColorLight.supports_color.truthy true
          sampleColorLight.supports_temperature.truthy)
  ∧ LifxCloudLight.supported_color_modes sampleColorLight =
      specSupportedModes sampleColorLight.supports_color.truthy
        sampleColorLight.supports_temperature.truthy :=
  C5_color_mode_selection sampleColorLight true rfl

/-- C6: a turn-on command requesting the effect "breathe" or "pulse"
issues exactly the corresponding effect call with the fixed defaults
(color "white", period 2 and cycles 3 for breathe, period 1 and cycles 3
for pulse) and returns: no set_state call and no coordinator refresh
happens on that path. -/
theorem C6_effect_path (lightId : String) (args : LifxCloudLight.TurnOnArgs) :
    (args.effect = some "breathe" →
        LifxCloudLight.async_turn_on true lightId args =
          [.breathe ("id:" ++ lightId) "white" 2 3 false true (1 / 2)]
        ∧ LifxCloudLight.sentSetState (LifxCloudLight.async_turn_on true lightId args) = none
        ∧ ApiCall.requestRefresh ∉ LifxCloudLight.async_turn_on true lightId args)
  ∧ (args.effect = some "pulse" →
        LifxCloudLight.async_turn_on true lightId args =
          [.pulse ("id:" ++ lightId) "white" 1 3 false true]
        ∧ LifxCloudLight.sentSetState (LifxCloudLight.async_turn_on true lightId args) = none
        ∧ ApiCall.requestRefresh ∉ LifxCloudLight.async_turn_on true lightId args) := by
  constructor <;> intro he <;> refine ⟨?_, ?_, ?_⟩ <;>
    simp [LifxCloudLight.async_turn_on, he, LifxCloudLight.sentSetState, List.findSome?]

/-- Witness for C6: the breathe path evaluated at a concrete id and
argument set. -/
theorem C6_effect_path_witness :
    LifxCloudLight.async_turn_on true "d073"
        { effect := some "breathe", hs_color := none, color_temp_kelvin := none,
          brightness := none, transition := none } =
      [.breathe ("id:" ++ "d073") "white" 2 3 false true (1 / 2)] :=
  ((C6_effect_path "d073"
    { effect := some "breathe", hs_color := none, color_temp_kelvin := none,
      brightness := none, transition := none }).1 rfl).1

/-- C7: in the non-effect turn-on path the color descriptor comes from
the HS input when present (kelvin is then ignored), from the kelvin
input only when HS is absent, and no color field is sent to the vendor
when neither is supplied. -/
theorem C7_color_precedence (lightId : String) (args : LifxCloudLight.TurnOnArgs)
    (he : args.effect = none) :
    (∀ h s, args.hs_color = some (h, s) →
        LifxCloudLight.sentSetState (LifxCloudLight.async_turn_on true lightId args) =
          some ("id:" ++ lightId, some "on", some (.hs h (s / 100)),
            args.brightness.map (fun b => b / 255), args.transition.getD 1))
  ∧ (args.hs_color = none → ∀ k, args.color_temp_kelvin = some k →
        LifxCloudLight.sentSetState (LifxCloudLight.async_turn_on true lightId args) =
          some ("id:" ++ lightId, some "on", some (.kelvin k),
            args.brightness.map (fun b => b / 255), args.transition.getD 1))
  ∧ (args.hs_color = none → args.color_temp_kelvin = none →
        LifxCloudLight.sentSetState (LifxCloudLight.async_turn_on true lightId args) =
          some ("id:" ++ lightId, some "on", none,
            args.brightness.map (fun b => b / 255), args.transition.getD 1)
        ∧ "color" ∉ (set_state_body (some "on") none
            (args.brightness.map (fun b => b / 255)) (args.transition.getD 1)
            none false).map Prod.fst) := by
  refine ⟨?_, ?_, ?_⟩
  · intro h s hhs
    simp [LifxCloudLight.sentSetState, LifxCloudLight.async_turn_on, he,
      LifxCloudLight.colorStrOf, hhs, List.findSome?]
  · intro hhs k hk
    simp [LifxCloudLight.sentSetState, LifxCloudLight.async_turn_on, he,
      LifxCloudLight.colorStrOf, hhs, hk, List.findSome?]
  · intro hhs hk
    constructor
    · simp [LifxCloudLight.sentSetState, LifxCloudLight.async_turn_on, he,
        LifxCloudLight.colorStrOf, hhs, hk, List.findSome?]
    · cases args.brightness <;> simp [set_state_body]

/-- Witness for C7: with both HS and kelvin supplied on a concrete call,
the HS descriptor is the one sent. -/
theorem C7_color_precedence_witness :
    LifxCloudLight.sentSetState (LifxCloudLight.async_turn_on true "x"
        { effect := none, hs_color := some (120, 50), color_temp_kelvin := some 3500,
          brightness := none, transition := none }) =
      some ("id:" ++ "x", some "on", some (.hs 120 (50 / 100)), none, 1) :=
  (C7_color_precedence "x"
    { effect := none, hs_color := some (120, 50), color_temp_kelvin := some 3500,
      brightness := none, transition := none } rfl).1 120 50 rfl
